import Mathlib

/-!
Verification development for the pydantic-sqlite repository.

The definitions below are a shallow embedding of the Python sources:
  - `PyVal` models Python runtime values (model instances, lists, scalars)
    as they occur as field values and as sqlite cells;
  - `DataBase` models the state of `pydantic_sqlite._core.DataBase`
    (the registry dictionaries `_basemodels` and `_primary_keys`, and the
    sqlite tables with their rows and foreign-key metadata);
  - `DataBase.add`, `DataBase.model_from_table`,
    `DataBase.build_basemodel_from_dict`, `DataBase.special_conversion`,
    `DataBase.get_foreign_table_name`, `DataBase.upsert_model_in_foreign_table`
    and `convert_value_into_union_types` follow `_core.py` and `_misc.py`
    statement by statement;
  - `FailSafeDataBase` and `DB_Handler` model the context-manager state of
    `_wrapper.py` and `_handler.py`;
  - `PersistentView.save` models `DataBase.save` together with its file
    system effects.

Recursion through nested records (`add` calling itself on a nested model,
`model_from_table` resolving a foreign key by loading from another table)
is expressed with an explicit recursion-depth argument (`fuel`), exactly as
the Python call stack bounds the same recursion; the helper functions that
sit between two recursive calls receive the recursive call as an explicit
function argument so that every definition is structurally recursive and
computable by the kernel.

The typed-model framework (pydantic) is treated at its interface boundary:
`modelDumpRow` models `model_dump` (a model becomes a field dictionary),
`constructModel` models `cls(**d)` (construction from a field mapping,
failing when a declared field is missing from the mapping); validation
coercion beyond that is the identity.  Classes are identified by their
fully qualified name, looked up in an environment `Env`; the embedding has
no subclassing, so the `isinstance` checks of the source become equality
of runtime class names.
-/

/-- Python runtime values: scalars, lists, dictionaries and (pydantic) model
instances.  A model instance carries its runtime class name and its field
assignment in declaration order. -/
inductive PyVal where
  | vnone : PyVal
  | vbool : Bool → PyVal
  | vint : Int → PyVal
  | vstr : String → PyVal
  | vlist : List PyVal → PyVal
  | vdict : List (String × PyVal) → PyVal
  | vmodel : String → List (String × PyVal) → PyVal

/-- Python exception values, tagged by their class.  In Python,
`KeyError` is a subclass of `LookupError`. -/
inductive PyErr where
  | typeError (msg : String)
  | keyError (msg : String)
  | attributeError (msg : String)
  | valueError (msg : String)
  | runtimeError (msg : String)
  | fileNotFoundError (msg : String)
deriving DecidableEq, Repr

/-- Python `LookupError` is the superclass of `KeyError` (and `IndexError`). -/
def PyErr.isLookupError : PyErr → Bool
  | .keyError _ => true
  | _ => false

/-- Lookup in an association list with string keys; models reading from a
Python `dict` (first binding wins, matching `dict` key uniqueness). -/
def alookup {α : Type} : List (String × α) → String → Option α
  | [], _ => none
  | (k, v) :: xs, key => if k == key then some v else alookup xs key

/-- Update in an association list: replace the value at an existing key in
place, otherwise append the binding; models writing to a Python `dict`
(`d[k] = v` and `dict.update`), which keeps the insertion order of existing
keys. -/
def aset {α : Type} : List (String × α) → String → α → List (String × α)
  | [], key, v => [(key, v)]
  | (k, w) :: xs, key, v =>
      if k == key then (key, v) :: xs else (k, w) :: aset xs key v

/-- Python truthiness (`bool(v)`), as used by the walrus test
`if res := self._special_conversion(field_value)` in `DataBase.add`. -/
def truthy : PyVal → Bool
  | .vnone => false
  | .vbool b => b
  | .vint n => n != 0
  | .vstr s => s != ""
  | .vlist l => !l.isEmpty
  | .vdict l => !l.isEmpty
  | .vmodel _ _ => true

/-- Python `str(v)` for the values the projector stringifies (`Literal`
fields and elements of a list of scalars).  The container cases are never
relied upon by a theorem; they only keep the function total. -/
def pystr : PyVal → String
  | .vnone => "None"
  | .vbool b => if b then "True" else "False"
  | .vint n => toString n
  | .vstr s => s
  | .vlist _ => "list-repr"
  | .vdict _ => "dict-repr"
  | .vmodel c _ => c

/-- Runtime class name of a value (`v.__class__`). -/
def classOf : PyVal → String
  | .vnone => "NoneType"
  | .vbool _ => "bool"
  | .vint _ => "int"
  | .vstr _ => "str"
  | .vlist _ => "list"
  | .vdict _ => "dict"
  | .vmodel c _ => c

/-- SQL equality of two stored cells, as used by
`rows_where("pk = ?", [value])`: scalar cells compare by value (sqlite
compares INTEGER and TEXT storage classes without coercion, booleans are
stored as integers, and `NULL = NULL` does not match). -/
def cellEq : PyVal → PyVal → Bool
  | .vbool a, .vbool b => a == b
  | .vbool a, .vint b => (if a then (1 : Int) else 0) == b
  | .vint a, .vbool b => a == (if b then (1 : Int) else 0)
  | .vint a, .vint b => a == b
  | .vstr a, .vstr b => a == b
  | _, _ => false

/-- Attribute access `getattr(model, name)` on a model instance. -/
def getattrE (model : PyVal) (name : String) : Except PyErr PyVal :=
  match model with
  | .vmodel _ fs =>
      match alookup fs name with
      | some v => .ok v
      | none => .error (.attributeError name)
  | _ => .error (.attributeError name)

/-- Member of a union annotation: whether it is `NoneType`, and its
constructor `t(value)`, returning `none` where the Python call raises. -/
structure UMember where
  isNoneType : Bool
  construct : PyVal → Option PyVal

/-- Declared field annotations as discriminated by `DataBase.add` via
`get_origin` and `issubclass`: a plain scalar annotation (no branch of the
projector fires), `Any`, a union, a `Literal`, a list of scalars, a list of
models, or a single nested model. -/
inductive FieldAnn where
  | scalarAnn
  | anyAnn
  | unionAnn (members : List UMember)
  | literalAnn
  | listOfScalar
  | listOfModel (cls : String)
  | modelAnn (cls : String)

/-- The opt-in `SQConfig` inner class of a model: the `special_insert`
flag and the `convert` conversion function (present or not). -/
structure SQConfigE where
  special_insert : Bool
  hasConvert : Bool
  convert : PyVal → PyVal

/-- Definition of a Python class visible to the embedding: whether it is a
pydantic `BaseModel` subclass, its declared fields in order, its optional
`SQConfig`, and its optional `sqlite_repr` override (a function of the
instance's field assignment). -/
structure ClassDef where
  isBaseModel : Bool
  fields : List (String × FieldAnn)
  sqconfig : Option SQConfigE
  sqliteRepr : Option (List (String × PyVal) → List (String × PyVal))

/-- The ambient class environment, keyed by qualified class name. -/
def Env : Type := List (String × ClassDef)

/-- One row of a sqlite table: a column-to-cell mapping in column order. -/
def Row : Type := List (String × PyVal)

/-- One sqlite table: its rows and the foreign-key metadata
(column name to target table) recorded at table creation. -/
structure Table where
  rows : List Row
  fks : List (String × String)

/-- Metadata record of `TableBaseModel` in `_core.py`: table name, the
identity string of the model class (`modulename`), and the primary keys. -/
structure TableBaseModelE where
  table : String
  modulename : String
  pks : List String

/-- The dictionary produced by `TableBaseModel.data()`, persisted into the
reserved `__basemodels__` table. -/
def TableBaseModelE.data (m : TableBaseModelE) : Row :=
  [("table", .vstr m.table), ("modulename", .vstr m.modulename),
   ("pks", .vlist (m.pks.map .vstr))]

/-- State of `pydantic_sqlite._core.DataBase`: the two registry
dictionaries and the sqlite tables (the reserved `__basemodels__` table is
an ordinary member of `tables` once created). -/
structure DataBase where
  basemodels : List (String × TableBaseModelE)
  primary_keys : List (String × String)
  tables : List (String × Table)

/-- The empty in-memory database produced by `DataBase()`. -/
def DataBase.empty : DataBase := ⟨[], [], []⟩

/-- Rows of a table matching `rows_where("pk = ?", [value])`. -/
def rowsWhereEq (rows : List Row) (col : String) (v : PyVal) : List Row :=
  rows.filter fun r =>
    match alookup r col with
    | some c => cellEq c v
    | none => false

/-- Upsert of one row into a row list, keyed on the primary-key column:
the first row whose key cell matches is replaced in place, otherwise the
row is appended (sqlite-utils upsert: insert-or-ignore then update, which
keeps the position of an updated row). -/
def upsertRows : List Row → String → Row → List Row
  | [], _, row => [row]
  | r :: rs, pkCol, row =>
      match alookup r pkCol, alookup row pkCol with
      | some a, some b =>
          if cellEq a b then row :: rs else r :: upsertRows rs pkCol row
      | _, _ => r :: upsertRows rs pkCol row

/-- Upsert of a record into a table of the database
(`self._db[tablename].upsert(record, pk=..., foreign_keys=...)`): a missing
table is created, recording the foreign-key hints; the hints are metadata
only on an existing table. -/
def DataBase.upsertTable (db : DataBase) (tablename : String) (pk : String)
    (row : Row) (fks : List (String × String)) : DataBase :=
  match alookup db.tables tablename with
  | none => { db with tables := db.tables ++ [(tablename, ⟨[row], fks⟩)] }
  | some tb =>
      { db with tables := aset db.tables tablename ⟨upsertRows tb.rows pk row, tb.fks⟩ }

/-- Names of the tables present in the sqlite database
(`self._db.table_names()`). -/
def DataBase.tableNames (db : DataBase) : List String :=
  db.tables.map Prod.fst

/-- Embedding of `DataBase._create_new_table`: record the metadata in the
two registry dictionaries and upsert the `TableBaseModel.data()` row into
the reserved `__basemodels__` table keyed on `modulename` (the source
passes `pk="modulename"` to that upsert). -/
def DataBase.create_new_table (db : DataBase) (tablename : String)
    (basemodel_cls : String) (pk : String) : DataBase :=
  let _m : TableBaseModelE := ⟨tablename, basemodel_cls, [pk]⟩
  let db1 : DataBase :=
    { db with
      basemodels := aset db.basemodels tablename _m,
      primary_keys := aset db.primary_keys tablename pk }
  db1.upsertTable "__basemodels__" "modulename" _m.data []

/-- Embedding of `DataBase._get_foreign_table_name`: look the field up in
the caller-supplied `foreign_tables` mapping (raising `KeyError` when it is
absent), then require the named table to exist in the database (raising
`KeyError` otherwise). -/
def DataBase.get_foreign_table_name (db : DataBase) (field_name : String)
    (foreign_tables : List (String × String)) : Except PyErr String :=
  match alookup foreign_tables field_name with
  | none =>
      .error (.keyError ("detect field of Type BaseModel, but can not find " ++
        field_name ++ " in foreign_tables"))
  | some foreign_table_name =>
      if db.tableNames.contains foreign_table_name then .ok foreign_table_name
      else
        .error (.keyError ("Can not add a model, which has a foreign Key to a Table " ++
          foreign_table_name ++ " which does not exists"))

/-- Embedding of `DataBase.model_in_table`: extract the key value from a
model argument via `getattr`, then test whether a row with that key exists. -/
def DataBase.model_in_table (db : DataBase) (tablename : String)
    (pk_value : PyVal) : Except PyErr Bool :=
  match alookup db.primary_keys tablename with
  | none => .error (.keyError tablename)
  | some _pk =>
      match
        (match pk_value with
         | .vmodel c fs => getattrE (.vmodel c fs) _pk
         | v => .ok v) with
      | .error e => .error e
      | .ok v =>
          match alookup db.tables tablename with
          | none => .error (.runtimeError ("no such table: " ++ tablename))
          | some tb => .ok (!(rowsWhereEq tb.rows _pk v).isEmpty)

/-- Whether a class declares a usable special conversion: the inner
`special_possible` check of `DataBase._special_conversion` (an absent
`SQConfig` raises `AttributeError`, caught and turned into `False`; an
`SQConfig` without `convert` is `False`; otherwise the `special_insert`
flag decides). -/
def specialPossible (env : Env) (v : PyVal) : Bool :=
  match alookup env (classOf v) with
  | none => false
  | some cd =>
      match cd.sqconfig with
      | none => false
      | some cfg => cfg.hasConvert && cfg.special_insert

/-- Apply `obj_class.SQConfig.convert` for the class of name `cls`;
total (identity fallback) because it is only reached after
`specialPossible` succeeded. -/
def applyConvert (env : Env) (cls : String) (v : PyVal) : PyVal :=
  match alookup env cls with
  | some cd =>
      match cd.sqconfig with
      | some cfg => cfg.convert v
      | none => v
  | none => v

/-- Embedding of `DataBase._special_conversion`: an empty list and a value
whose class has no enabled conversion yield the Python literal `False`; a
non-empty list whose first element's class has an enabled conversion is
checked for homogeneity (raising `ValueError` otherwise) and converted
element-wise; a convertible non-list value is converted. -/
def DataBase.special_conversion (env : Env) (field_value : PyVal) :
    Except PyErr PyVal :=
  match field_value with
  | .vlist [] => .ok (.vbool false)
  | .vlist (x :: xs) =>
      if !specialPossible env x then .ok (.vbool false)
      else if !(x :: xs).all (fun m => classOf m == classOf x) then
        .error (.valueError "not all values in the List are from the same type")
      else .ok (.vlist ((x :: xs).map (applyConvert env (classOf x))))
  | v =>
      if !specialPossible env v then .ok (.vbool false)
      else .ok (applyConvert env (classOf v) v)

/-- First successful construction in the loop of
`convert_value_into_union_types` (`_misc.py`): try each union member in
declaration order, returning the value unchanged when every construction
raises. -/
def goUnion : List UMember → PyVal → PyVal
  | [], value => value
  | t :: ts, value =>
      match t.construct value with
      | some r => r
      | none => goUnion ts value

/-- Whether a value is Python `None`. -/
def isVNone : PyVal → Bool
  | .vnone => true
  | _ => false

/-- Embedding of `convert_value_into_union_types` (`_misc.py`): `None`
passes through when the union contains `NoneType` and the value is `None`;
otherwise each member type is tried in declaration order and the first
successful construction wins, the raw value being returned when all fail. -/
def convert_value_into_union_types (members : List UMember) (value : PyVal) :
    PyVal :=
  if members.any (fun t => t.isNoneType) && isVNone value then .vnone
  else goUnion members value

/-- Recursive `model_dump` on a value, with explicit recursion depth:
model instances and dictionaries dump to dictionaries, lists dump
element-wise, scalars are unchanged. -/
def dumpVal : Nat → PyVal → PyVal
  | 0, v => v
  | fuel + 1, v =>
      match v with
      | .vmodel _ fs => .vdict (fs.map fun p => (p.1, dumpVal fuel p.2))
      | .vlist xs => .vlist (xs.map (dumpVal fuel))
      | .vdict fs => .vdict (fs.map fun p => (p.1, dumpVal fuel p.2))
      | x => x

/-- The dictionary `model.model_dump()` of a model instance: its field
assignment with nested values dumped recursively. -/
def modelDumpRow (fuel : Nat) (model : PyVal) : Row :=
  match model with
  | .vmodel _ fs => fs.map fun p => (p.1, dumpVal fuel p.2)
  | _ => []

/-- Embedding of `json.loads` applied to a stored cell: list and
dictionary cells (stored as JSON text by the engine) decode to themselves,
anything else fails to decode. -/
def jsonLoads : PyVal → Except PyErr PyVal
  | .vlist xs => .ok (.vlist xs)
  | .vdict xs => .ok (.vdict xs)
  | v => .error (.valueError ("json decode error on " ++ pystr v))

/-- Construction `cls(**d)` at the typed-model interface boundary: every
declared field must be present in the mapping (pydantic raises a
validation error otherwise); the instance carries the declared fields in
declaration order. -/
def collectFields (d : Row) : List (String × FieldAnn) → Except PyErr Row
  | [] => .ok []
  | (n, _) :: rest =>
      match alookup d n with
      | none => .error (.valueError ("validation error: missing field " ++ n))
      | some v => (collectFields d rest).map (fun r => (n, v) :: r)

/-- Build the model instance from the decoded field mapping. -/
def constructModel (cls : String) (cd : ClassDef) (d : Row) :
    Except PyErr PyVal :=
  (collectFields d cd.fields).map (.vmodel cls ·)

/-- Type of the recursive loader passed into
`build_basemodel_from_dict`: `model_from_table` at one less recursion
depth, with the database captured. -/
def LoaderFn : Type := String → PyVal → Except PyErr (Option PyVal)

/-- Resolve each identifier of a JSON-decoded foreign-key array through
the loader (`self.model_from_table(foreign_refs[field_name], val)`),
an absent row becoming `None`. -/
def mapLoader (loader : LoaderFn) (t : String) :
    List PyVal → Except PyErr (List PyVal)
  | [] => .ok []
  | v :: vs =>
      match loader t v with
      | .error e => .error e
      | .ok o => (mapLoader loader t vs).map ((o.getD .vnone) :: ·)

/-- Per-column decoding loop of `DataBase._build_basemodel_from_dict`:
for each column of the row, look up its declared annotation (`KeyError` on
schema drift), then decode: a foreign-key column resolves through the
loader (element-wise after `json.loads` for a list annotation), a plain
list column is JSON-decoded, a union column goes through
`convert_value_into_union_types`, anything else passes through. -/
def buildFields (loader : LoaderFn)
    (field_models : List (String × FieldAnn)) :
    Row → List (String × String) → Except PyErr Row
  | [], _ => .ok []
  | (field_name, field_value) :: rest, foreign_refs =>
      match alookup field_models field_name with
      | none => .error (.keyError field_name)
      | some info =>
          let dataE : Except PyErr PyVal :=
            match alookup foreign_refs field_name with
            | some other_table =>
                match info with
                | .listOfScalar | .listOfModel _ =>
                    match jsonLoads field_value with
                    | .error e => .error e
                    | .ok (.vlist vals) =>
                        (mapLoader loader other_table vals).map .vlist
                    | .ok _ => .error (.typeError "not iterable")
                | _ => (loader other_table field_value).map (fun o => o.getD .vnone)
            | none =>
                match info with
                | .listOfScalar | .listOfModel _ => jsonLoads field_value
                | .unionAnn members =>
                    .ok (convert_value_into_union_types members field_value)
                | _ => .ok field_value
          match dataE with
          | .error e => .error e
          | .ok data =>
              (buildFields loader field_models rest foreign_refs).map
                ((field_name, data) :: ·)

/-- Embedding of `DataBase._build_basemodel_from_dict`: decode the row
column by column, then construct the instance of the registered class from
the decoded mapping. -/
def build_basemodel_from_dict (env : Env) (loader : LoaderFn)
    (tm : TableBaseModelE) (row : Row) (foreign_refs : List (String × String)) :
    Except PyErr PyVal :=
  match alookup env tm.modulename with
  | none => .error (.keyError tm.modulename)
  | some cd =>
      match buildFields loader cd.fields row foreign_refs with
      | .error e => .error e
      | .ok d => constructModel tm.modulename cd d

/-- Embedding of `DataBase.model_from_table`: look up the table's primary
key, collect the rows matching the key value, return `None` when there is
none, and otherwise decode `entries[0]` (the first matching row). -/
def DataBase.model_from_table (env : Env) :
    Nat → DataBase → String → PyVal → Except PyErr (Option PyVal)
  | 0, _, _, _ => .error (.runtimeError "maximum recursion depth exceeded")
  | fuel + 1, db, tablename, pk_value =>
      match alookup db.primary_keys tablename with
      | none => .error (.keyError tablename)
      | some _pk =>
          match alookup db.tables tablename with
          | none => .error (.runtimeError ("no such table: " ++ tablename))
          | some tb =>
              let entries := rowsWhereEq tb.rows _pk pk_value
              match alookup db.basemodels tablename with
              | none => .error (.keyError tablename)
              | some tm =>
                  match entries with
                  | [] => .ok none
                  | row :: _ =>
                      (build_basemodel_from_dict env
                        (fun t v => DataBase.model_from_table env fuel db t v)
                        tm row tb.fks).map some

/-- The loader closure `self.model_from_table` as it is passed (with the
database captured) into the row decoder; naming it keeps one recursion
step readable in the equations below. -/
def tableLoader (env : Env) (fuel : Nat) (db : DataBase) : LoaderFn :=
  fun t v => DataBase.model_from_table env fuel db t v

/-- One-step equation of `model_from_table` at positive depth, with the
recursive loader presented through `tableLoader`. -/
theorem model_from_table_succ (env : Env) (fuel : Nat) (db : DataBase)
    (tablename : String) (pk_value : PyVal) :
    DataBase.model_from_table env (fuel + 1) db tablename pk_value =
      (match alookup db.primary_keys tablename with
      | none => .error (.keyError tablename)
      | some _pk =>
          match alookup db.tables tablename with
          | none => .error (.runtimeError ("no such table: " ++ tablename))
          | some tb =>
              let entries := rowsWhereEq tb.rows _pk pk_value
              match alookup db.basemodels tablename with
              | none => .error (.keyError tablename)
              | some tm =>
                  match entries with
                  | [] => .ok none
                  | row :: _ =>
                      (build_basemodel_from_dict env (tableLoader env fuel db)
                        tm row tb.fks).map some) := rfl

/-- Collect `getattr(m, pk)` for each member of a list field value (the
list comprehension of the list-of-models branch of `DataBase.add`). -/
def mapGetattrE (pk : String) : List PyVal → Except PyErr (List PyVal)
  | [] => .ok []
  | m :: ms =>
      match getattrE m pk with
      | .error e => .error e
      | .ok v => (mapGetattrE pk ms).map (v :: ·)

/-- Type of the recursive storer passed through the write-side helpers:
`DataBase.add` at one less recursion depth, with `update_nested_models` at
its default `True` (the recursive call in
`_upsert_model_in_foreign_table` does not forward the flag). -/
def AddFn : Type :=
  DataBase → String → PyVal → List (String × String) → String →
    DataBase × Option PyErr

/-- Inner `add_nested_model` of `DataBase._upsert_model_in_foreign_table`:
re-store the nested model through the recursive `add` precisely when it is
absent from the target table or `update_nested_models` holds, and return
`getattr(model, pk)` in every non-raising case. -/
def addNested (adder : AddFn) (db : DataBase) (model : PyVal)
    (foreign_table_name : String) (update_nested_models : Bool) (pk : String)
    (foreign_refs : List (String × String)) : DataBase × Except PyErr PyVal :=
  match getattrE model pk with
  | .error e => (db, .error e)
  | .ok pkv =>
      match db.model_in_table foreign_table_name pkv with
      | .error e => (db, .error e)
      | .ok inTable =>
          if !inTable || update_nested_models then
            match adder db foreign_table_name model foreign_refs pk with
            | (db2, some e) => (db2, .error e)
            | (db2, none) => (db2, .ok pkv)
          else (db, .ok pkv)

/-- Element-wise `add_nested_model` over a list field value. -/
def addNestedList (adder : AddFn) (db : DataBase)
    (foreign_table_name : String) (update_nested_models : Bool) (pk : String)
    (foreign_refs : List (String × String)) :
    List PyVal → DataBase × Except PyErr (List PyVal)
  | [] => (db, .ok [])
  | m :: ms =>
      match addNested adder db m foreign_table_name update_nested_models pk
          foreign_refs with
      | (db2, .error e) => (db2, .error e)
      | (db2, .ok pkv) =>
          match addNestedList adder db2 foreign_table_name
              update_nested_models pk foreign_refs ms with
          | (db3, .error e) => (db3, .error e)
          | (db3, .ok rest) => (db3, .ok (pkv :: rest))

/-- Embedding of `DataBase._upsert_model_in_foreign_table`: capture the
target table's foreign-key metadata once, then upsert the nested model (or
each member of a list of nested models) and return its primary-key
value(s). -/
def DataBase.upsert_model_in_foreign_table (adder : AddFn) (db : DataBase)
    (field_value : PyVal) (foreign_table_name : String)
    (update_nested_models : Bool) (pk : String) :
    DataBase × Except PyErr PyVal :=
  let foreign_refs :=
    match alookup db.tables foreign_table_name with
    | some tb => tb.fks
    | none => []
  match field_value with
  | .vlist xs =>
      match addNestedList adder db foreign_table_name update_nested_models pk
          foreign_refs xs with
      | (db2, .error e) => (db2, .error e)
      | (db2, .ok ids) => (db2, .ok (.vlist ids))
  | v => addNested adder db v foreign_table_name update_nested_models pk
      foreign_refs

/-- Field loop of `DataBase.add`, in source order per field: the special
conversion preempts (under the walrus truthiness test), then `Any` and
union annotations store the live value, a `Literal` stores `str(value)`, a
list of models stores the list of member primary keys (recording a
foreign-key hint, without storing the members), a list of scalars stores
the stringified members, a single nested model is upserted into its
foreign table and its primary-key value stored; any other annotation keeps
the `model_dump` value.  The threaded state is the pair of the assembled
record and the accumulated foreign-key hints. -/
def processFields (env : Env) (adder : AddFn) (db : DataBase)
    (model : PyVal) (foreign_tables : List (String × String))
    (update_nested_models : Bool) :
    List (String × FieldAnn) → Row → List (String × String × String) →
    DataBase × Except PyErr (Row × List (String × String × String))
  | [], data, fks => (db, .ok (data, fks))
  | (field_name, ann) :: rest, data, fks =>
      match getattrE model field_name with
      | .error e => (db, .error e)
      | .ok field_value =>
          match DataBase.special_conversion env field_value with
          | .error e => (db, .error e)
          | .ok res =>
              if truthy res then
                processFields env adder db model foreign_tables
                  update_nested_models rest (aset data field_name res) fks
              else
                match ann with
                | .anyAnn | .unionAnn _ =>
                    processFields env adder db model foreign_tables
                      update_nested_models rest
                      (aset data field_name field_value) fks
                | .literalAnn =>
                    processFields env adder db model foreign_tables
                      update_nested_models rest
                      (aset data field_name (.vstr (pystr field_value))) fks
                | .listOfModel _ =>
                    match db.get_foreign_table_name field_name foreign_tables with
                    | .error e => (db, .error e)
                    | .ok ftn =>
                        match alookup db.primary_keys ftn with
                        | none => (db, .error (.keyError ftn))
                        | some fpk =>
                            match field_value with
                            | .vlist xs =>
                                match mapGetattrE fpk xs with
                                | .error e => (db, .error e)
                                | .ok ids =>
                                    processFields env adder db model
                                      foreign_tables update_nested_models rest
                                      (aset data field_name (.vlist ids))
                                      (fks ++ [(field_name, ftn, fpk)])
                            | _ => (db, .error (.typeError "value is not iterable"))
                | .listOfScalar =>
                    match field_value with
                    | .vlist xs =>
                        processFields env adder db model foreign_tables
                          update_nested_models rest
                          (aset data field_name
                            (.vlist (xs.map (fun m => .vstr (pystr m))))) fks
                    | _ => (db, .error (.typeError "value is not iterable"))
                | .modelAnn _ =>
                    match db.get_foreign_table_name field_name foreign_tables with
                    | .error e => (db, .error e)
                    | .ok ftn =>
                        match alookup db.primary_keys ftn with
                        | none => (db, .error (.keyError ftn))
                        | some fpk =>
                            match DataBase.upsert_model_in_foreign_table adder
                                db field_value ftn update_nested_models fpk with
                            | (db2, .error e) => (db2, .error e)
                            | (db2, .ok ids) =>
                                processFields env adder db2 model
                                  foreign_tables update_nested_models rest
                                  (aset data field_name ids)
                                  (fks ++ [(field_name, ftn, fpk)])
                | .scalarAnn =>
                    processFields env adder db model foreign_tables
                      update_nested_models rest data fks

/-- Embedding of `DataBase.add`: reject non-models, register an unseen
table (persisting the registry row), reject a model whose runtime class
differs from the registered one, assemble the record from `model_dump`
(or the `sqlite_repr` override) and the field loop, and finally upsert the
record keyed on `pk` with the discovered foreign-key hints.  The first
component of the result is the database state when the run raised (second
component `some e`), matching the mutations already performed at the
raise. -/
def DataBase.add (env : Env) :
    Nat → DataBase → String → PyVal → List (String × String) → Bool →
    String → DataBase × Option PyErr
  | 0, db, _, _, _, _, _ =>
      (db, some (.runtimeError "maximum recursion depth exceeded"))
  | fuel + 1, db, tablename, model, foreign_tables, update_nested_models, pk =>
      match model with
      | .vmodel cls fields =>
          match alookup env cls with
          | none =>
              (db, some (.typeError "Only pydantic BaseModels can be added to the database"))
          | some cd =>
              if !cd.isBaseModel then
                (db, some (.typeError "Only pydantic BaseModels can be added to the database"))
              else
                let db := if (alookup db.basemodels tablename).isNone then
                    db.create_new_table tablename cls pk
                  else db
                match alookup db.basemodels tablename with
                | none => (db, some (.runtimeError "unreachable: table registered above"))
                | some tm =>
                    if tm.modulename != cls then
                      (db, some (.typeError "Only pydantic BaseModels of the registered type can be added to the table"))
                    else
                      let data0 :=
                        match cd.sqliteRepr with
                        | some f => f fields
                        | none => modelDumpRow (fuel + 1) (.vmodel cls fields)
                      match processFields env
                          (fun db2 t m ft pk2 =>
                            DataBase.add env fuel db2 t m ft true pk2)
                          db (.vmodel cls fields) foreign_tables
                          update_nested_models cd.fields data0 [] with
                      | (db2, .error e) => (db2, some e)
                      | (db2, .ok (data, fks)) =>
                          if (alookup data pk).isNone then
                            (db2, some (.runtimeError "upsert requires the primary key column"))
                          else
                            (db2.upsertTable tablename pk data
                              (fks.map (fun t => (t.1, t.2.1))), none)
      | _ => (db, some (.typeError "Only pydantic BaseModels can be added to the database"))

/-- The file system visible to `save`: a mapping from path to file
content. -/
def FS : Type := List (String × String)

/-- Whether a path exists as a file (`os.path.isfile`). -/
def FS.isfile (fs : FS) (p : String) : Bool := (alookup fs p).isSome

/-- Write a content at a path. -/
def FS.write (fs : FS) (p content : String) : FS := aset fs p content

/-- Copy a file (`shutil.copyfile`). -/
def FS.copyfile (fs : FS) (src dst : String) : FS :=
  aset fs dst ((alookup fs src).getD "")

/-- Embedding of the `DataBase.filename` property: the file reported by
`PRAGMA database_list` is normalised so that both the empty string and
`:memory:` mean an in-memory database. -/
def filenameProp (dbFile : String) : String :=
  if dbFile == "" || dbFile == ":memory:" then ":memory:" else dbFile

/-- Result of a `save` call: the file system afterwards, the warnings
logged, and the exception raised, if any. -/
structure SaveResult where
  fs : FS
  warnings : List String
  raised : Option PyErr

/-- Embedding of `DataBase.save`: on a file-backed database (the
`filename` property differs from `:memory:`) the method logs a warning and
returns immediately; otherwise it enforces the `.db` extension, copies a
pre-existing destination to a backup next to the temporary dump when
`backup` holds, dumps the connection to the temporary file and copies it
over the destination.  `dbFile` is the file reported by the pragma, `dump`
the serialized content of the live connection, and `tmp_dir` the directory
returned by `tempfile.mkdtemp()`; the environmental failure caught by the
`try` block of the source is not modelled, so the dump path always
succeeds here. -/
def DataBase.save (dbFile dump : String) (fs : FS) (tmp_dir : String)
    (filename : String) (backup : Bool) (backup_suffix : String) : SaveResult :=
  if filenameProp dbFile != ":memory:" then
    { fs := fs,
      warnings := ["database is persistent, already stored in a file: " ++
        filenameProp dbFile],
      raised := none }
  else
    let filename := if filename.endsWith ".db" then filename else filename ++ ".db"
    let name := (filename.splitOn "/").getLastD filename
    let tmp_name := tmp_dir ++ "/" ++ name
    let backup_file := tmp_name ++ backup_suffix
    let fs1 := if fs.isfile filename && backup then
        fs.copyfile filename backup_file
      else fs
    let fs2 := fs1.write tmp_name dump
    let fs3 := fs2.copyfile tmp_name filename
    { fs := fs3, warnings := [], raised := none }

/-- Context-manager state of `FailSafeDataBase` (`_wrapper.py`): the
internal `_ctx` reference, set on first entry and never cleared. -/
structure FailSafeDataBase where
  ctx : Option Unit
  dbname : String
  snapshot_suffix : String

/-- Embedding of `FailSafeDataBase.__enter__`: raise `RuntimeError` when
`_ctx` is already set, otherwise set it and hand out the database. -/
def FailSafeDataBase.enter (h : FailSafeDataBase) :
    Except PyErr FailSafeDataBase :=
  match h.ctx with
  | some _ => .error (.runtimeError "FailSafeDataBase is not reentrant")
  | none => .ok { h with ctx := some () }

/-- Embedding of `FailSafeDataBase.__exit__`: the assertion demands a
previous entry; a pending exception triggers a snapshot (second component
of the result); `_ctx` is left untouched in every case. -/
def FailSafeDataBase.exitCtx (h : FailSafeDataBase) (excOccurred : Bool) :
    Except PyErr (FailSafeDataBase × Bool) :=
  match h.ctx with
  | none => .error (.runtimeError "assert failed: Context was not entered")
  | some _ => .ok (h, excOccurred)

/-- Context-manager state of `DB_Handler` (`_handler.py`): same lifecycle
as `FailSafeDataBase`. -/
structure DB_Handler where
  ctx : Option Unit
  dbname : String
  snapshot_suffix : String

/-- Embedding of `DB_Handler.__enter__`. -/
def DB_Handler.enter (h : DB_Handler) : Except PyErr DB_Handler :=
  match h.ctx with
  | some _ => .error (.runtimeError "DB_Handler is not reentrant")
  | none => .ok { h with ctx := some () }

/-- Embedding of `DB_Handler.__exit__`: assertion, optional snapshot,
`_ctx` untouched. -/
def DB_Handler.exitCtx (h : DB_Handler) (excOccurred : Bool) :
    Except PyErr (DB_Handler × Bool) :=
  match h.ctx with
  | none => .error (.runtimeError "assert failed: Context was not entered")
  | some _ => .ok (h, excOccurred)

/-! Helper lemmas about the association-list primitives, shared by the
claim theorems below. -/

theorem alookup_aset_self {α : Type} (l : List (String × α)) (k : String) (v : α) :
    alookup (aset l k v) k = some v := by
  induction l with
  | nil => simp [aset, alookup]
  | cons hd tl ih =>
      obtain ⟨a, b⟩ := hd
      by_cases h : a = k
      · subst h; simp [aset, alookup]
      · simp [aset, alookup, h, ih]

theorem alookup_aset_ne {α : Type} (l : List (String × α)) (k k2 : String)
    (v : α) (h : k ≠ k2) : alookup (aset l k v) k2 = alookup l k2 := by
  induction l with
  | nil => simp [aset, alookup, h]
  | cons hd tl ih =>
      obtain ⟨a, b⟩ := hd
      by_cases h1 : a = k
      · subst h1; simp [aset, alookup, h]
      · by_cases h2 : a = k2
        · subst h2; simp [aset, alookup, h1]
        · simp [aset, alookup, h1, h2, ih]

theorem alookup_append_ne {α : Type} (l : List (String × α)) (k k2 : String)
    (v : α) (h : k ≠ k2) : alookup (l ++ [(k, v)]) k2 = alookup l k2 := by
  induction l with
  | nil => simp [alookup, h]
  | cons hd tl ih =>
      obtain ⟨a, b⟩ := hd
      by_cases h2 : a = k2 <;> simp [alookup, h2, ih]

/-! Concrete classes and instances used by the claim theorems. -/

/-- Class of a plain record with two scalar (string) fields, standing for
the `Person` / `Car` shapes of the repository's tests. -/
def childCls : ClassDef :=
  ⟨true, [("uuid", .scalarAnn), ("name", .scalarAnn)], none, none⟩

/-- Class of a record holding one nested record and one list of nested
records, standing for the `Employee` / `Garage` shapes. -/
def parentCls : ClassDef :=
  ⟨true,
   [("uuid", .scalarAnn), ("buddy", .modelAnn "Child"),
    ("kids", .listOfModel "Child")], none, none⟩

/-- Environment for the round-trip claims. -/
def envC1 : Env := [("Child", childCls), ("Parent", parentCls)]

/-- A child instance. -/
def mkChild (u n : String) : PyVal :=
  .vmodel "Child" [("uuid", .vstr u), ("name", .vstr n)]

/-- The stored row of a child instance. -/
def childRow (u n : String) : Row := [("uuid", .vstr u), ("name", .vstr n)]

/-- A parent instance over a buddy child and a list of kid children. -/
def mkParent (pu bu bn : String) (ks : List (String × String)) : PyVal :=
  .vmodel "Parent"
    [("uuid", .vstr pu), ("buddy", mkChild bu bn),
     ("kids", .vlist (ks.map (fun k => mkChild k.1 k.2)))]

/-- The loop of the union decode returns the first successful
construction, here stated through `filterMap`: the head of the list of
all successful constructions, defaulting to the unchanged value. -/
theorem goUnion_eq_filterMap (ms : List UMember) (v : PyVal) :
    goUnion ms v = ((ms.filterMap (fun t => t.construct v)).headD v) := by
  induction ms with
  | nil => rfl
  | cons t ts ih =>
      simp only [goUnion, List.filterMap_cons]
      cases h : t.construct v with
      | none => simpa [h] using ih
      | some r => simp [h]

/-- C5: for a union-typed column and stored value v, decoding returns
None when the union includes NoneType and v is None; otherwise the member
constructors are attempted in declaration order and the first successful
construction is returned; when every construction fails the raw value is
returned unchanged.  The ordered first-success-else-identity behaviour is
expressed as the head of the list of successful constructions, defaulting
to the value itself. -/
theorem C5_union_decode_order (members : List UMember) (v : PyVal) :
    convert_value_into_union_types members v =
      if members.any (fun t => t.isNoneType) && isVNone v then .vnone
      else ((members.filterMap (fun t => t.construct v)).headD v) := by
  by_cases h : (members.any (fun t => t.isNoneType) && isVNone v) = true
  · simp [convert_value_into_union_types, h]
  · simp only [convert_value_into_union_types, h, if_neg, Bool.not_eq_true] at *
    simp [h, goUnion_eq_filterMap]

/-- C9: calling save on a file-backed database (the pragma reports a real
file) is a no-op apart from the logged warning: no exception is raised, no
file is written anywhere, and the file system is returned unchanged. -/
theorem C9_save_filebacked_noop (dbFile dump : String) (fs : FS)
    (tmp_dir filename : String) (backup : Bool) (backup_suffix : String)
    (h1 : dbFile ≠ "") (h2 : dbFile ≠ ":memory:") :
    DataBase.save dbFile dump fs tmp_dir filename backup backup_suffix =
      { fs := fs,
        warnings := ["database is persistent, already stored in a file: " ++ dbFile],
        raised := none } := by
  simp [DataBase.save, filenameProp, h1, h2]

/-- C9 witness: the theorem applied to a concrete file-backed database. -/
theorem C9_save_filebacked_noop_witness :
    ("/tmp/data.db" : String) ≠ "" ∧ ("/tmp/data.db" : String) ≠ ":memory:" ∧
    DataBase.save "/tmp/data.db" "dumpcontent" [] "/tmpd" "other.db" true ".backup" =
      { fs := [],
        warnings := ["database is persistent, already stored in a file: /tmp/data.db"],
        raised := none } :=
  ⟨by decide, by decide,
    C9_save_filebacked_noop "/tmp/data.db" "dumpcontent" [] "/tmpd" "other.db"
      true ".backup" (by decide) (by decide)⟩

/-- C10: both snapshot wrappers are single use: after a first successful
entry, a concurrent second entry raises RuntimeError; exiting returns with
the internal context reference still set (it is never cleared), so a
sequential re-entry after a normal exit raises RuntimeError as well. -/
theorem C10_wrappers_single_use
    (w w1 : FailSafeDataBase) (bw : Bool) (d d1 : DB_Handler) (bd : Bool)
    (hw : w.enter = .ok w1) (hd : d.enter = .ok d1) :
    w1.enter = .error (.runtimeError "FailSafeDataBase is not reentrant") ∧
    w1.exitCtx bw = .ok (w1, bw) ∧
    (∀ w2 s, w1.exitCtx bw = .ok (w2, s) →
      w2.enter = .error (.runtimeError "FailSafeDataBase is not reentrant")) ∧
    d1.enter = .error (.runtimeError "DB_Handler is not reentrant") ∧
    d1.exitCtx bd = .ok (d1, bd) ∧
    (∀ d2 s, d1.exitCtx bd = .ok (d2, s) →
      d2.enter = .error (.runtimeError "DB_Handler is not reentrant")) := by
  obtain ⟨cw, nw, sw⟩ := w
  obtain ⟨cd, nd, sd⟩ := d
  cases cw with
  | some u => simp [FailSafeDataBase.enter] at hw
  | none =>
      cases cd with
      | some u => simp [DB_Handler.enter] at hd
      | none =>
          simp only [FailSafeDataBase.enter, DB_Handler.enter] at hw hd
          cases hw
          cases hd
          refine ⟨rfl, rfl, ?_, rfl, rfl, ?_⟩
          · intro w2 s h
            cases h
            rfl
          · intro d2 s h
            cases h
            rfl

/-- C10 witness: the theorem applied to concrete fresh wrapper
instances. -/
theorem C10_wrappers_single_use_witness :
    (⟨none, "mytest.db", "_snapshot.db"⟩ : FailSafeDataBase).enter =
      .ok ⟨some (), "mytest.db", "_snapshot.db"⟩ ∧
    (⟨none, "t.db", "_snapshot.db"⟩ : DB_Handler).enter =
      .ok ⟨some (), "t.db", "_snapshot.db"⟩ ∧
    ((⟨some (), "mytest.db", "_snapshot.db"⟩ : FailSafeDataBase).enter =
      .error (.runtimeError "FailSafeDataBase is not reentrant") ∧
    (⟨some (), "mytest.db", "_snapshot.db"⟩ : FailSafeDataBase).exitCtx true =
      .ok (⟨some (), "mytest.db", "_snapshot.db"⟩, true) ∧
    (∀ w2 s,
      (⟨some (), "mytest.db", "_snapshot.db"⟩ : FailSafeDataBase).exitCtx true =
        .ok (w2, s) →
      w2.enter = .error (.runtimeError "FailSafeDataBase is not reentrant")) ∧
    (⟨some (), "t.db", "_snapshot.db"⟩ : DB_Handler).enter =
      .error (.runtimeError "DB_Handler is not reentrant") ∧
    (⟨some (), "t.db", "_snapshot.db"⟩ : DB_Handler).exitCtx false =
      .ok (⟨some (), "t.db", "_snapshot.db"⟩, false) ∧
    (∀ d2 s,
      (⟨some (), "t.db", "_snapshot.db"⟩ : DB_Handler).exitCtx false =
        .ok (d2, s) →
      d2.enter = .error (.runtimeError "DB_Handler is not reentrant"))) :=
  ⟨rfl, rfl,
    C10_wrappers_single_use ⟨none, "mytest.db", "_snapshot.db"⟩
      ⟨some (), "mytest.db", "_snapshot.db"⟩ true
      ⟨none, "t.db", "_snapshot.db"⟩ ⟨some (), "t.db", "_snapshot.db"⟩ false
      rfl rfl⟩

/-- C2: the persisted registry row is upserted keyed on modulename (the
type identity), not on the table name: after registering the two distinct
table names Admins and Users for the same class Person, the reserved
metadata table holds a single row, naming only Users — the Admins entry
was overwritten.  The claim (and the repository's regression test
test_metadata_pk_collision_fix) requires one persisted entry per table
name instead. -/
theorem C2_registry_keyed_on_modulename :
    ∃ tb : Table,
      alookup ((DataBase.empty.create_new_table "Admins" "Person"
          "uuid").create_new_table "Users" "Person" "uuid").tables
          "__basemodels__" = some tb ∧
      tb.rows.map (fun r => alookup r "table") = [some (.vstr "Users")] :=
  ⟨_, rfl, rfl⟩

/-- A table state holding two rows that share the primary-key value d
(first row). -/
def dupRowFirst : Row := [("uuid", .vstr "d"), ("name", .vstr "first")]

/-- Second row sharing the primary-key value d. -/
def dupRowSecond : Row := [("uuid", .vstr "d"), ("name", .vstr "second")]

/-- A database whose table T contains the two duplicate-key rows. -/
def dupDB : DataBase :=
  ⟨[("T", ⟨"T", "Child", ["uuid"]⟩)], [("T", "uuid")],
   [("T", ⟨[dupRowFirst, dupRowSecond], []⟩)]⟩

/-- C3 counterexample: two stored rows match the primary-key value, yet
the single-record load succeeds and silently returns the record built from
the first matching row instead of surfacing a consistency error. -/
theorem C3_counterexample :
    (rowsWhereEq [dupRowFirst, dupRowSecond] "uuid" (.vstr "d")).length = 2 ∧
    DataBase.model_from_table envC1 2 dupDB "T" (.vstr "d") =
      .ok (some (.vmodel "Child" dupRowFirst)) :=
  ⟨rfl, rfl⟩

/-- C3 amended: whenever at least one stored row matches the primary-key
value, the single-record load decodes entries[0] — the first matching
row — and returns it, regardless of how many further rows match; no
consistency error is surfaced. -/
theorem C3_first_match_returned (env : Env) (fuel : Nat) (db : DataBase)
    (t : String) (v : PyVal) (pk : String) (tb : Table)
    (tm : TableBaseModelE) (r : Row) (rest : List Row)
    (hpk : alookup db.primary_keys t = some pk)
    (htb : alookup db.tables t = some tb)
    (htm : alookup db.basemodels t = some tm)
    (hmatch : rowsWhereEq tb.rows pk v = r :: rest) :
    DataBase.model_from_table env (fuel + 1) db t v =
      (build_basemodel_from_dict env
        (fun t2 v2 => DataBase.model_from_table env fuel db t2 v2)
        tm r tb.fks).map some := by
  simp [DataBase.model_from_table, hpk, htb, htm, hmatch]

/-- C3 witness: the amended theorem applied to the duplicate-key table,
with the second matching row explicitly present. -/
theorem C3_first_match_returned_witness :
    alookup dupDB.primary_keys "T" = some "uuid" ∧
    alookup dupDB.tables "T" = some ⟨[dupRowFirst, dupRowSecond], []⟩ ∧
    alookup dupDB.basemodels "T" = some ⟨"T", "Child", ["uuid"]⟩ ∧
    rowsWhereEq [dupRowFirst, dupRowSecond] "uuid" (.vstr "d") =
      dupRowFirst :: [dupRowSecond] ∧
    DataBase.model_from_table envC1 2 dupDB "T" (.vstr "d") =
      (build_basemodel_from_dict envC1
        (fun t2 v2 => DataBase.model_from_table envC1 1 dupDB t2 v2)
        ⟨"T", "Child", ["uuid"]⟩ dupRowFirst
        (⟨[dupRowFirst, dupRowSecond], []⟩ : Table).fks).map some :=
  ⟨rfl, rfl, rfl, rfl,
    C3_first_match_returned envC1 1 dupDB "T" (.vstr "d") "uuid"
      ⟨[dupRowFirst, dupRowSecond], []⟩ ⟨"T", "Child", ["uuid"]⟩
      dupRowFirst [dupRowSecond] rfl rfl rfl rfl⟩

/-- A non-model class carrying an enabled custom conversion whose result
is the falsy empty string. -/
def specialFalsyCls : ClassDef :=
  ⟨false, [], some ⟨true, true, fun _ => .vstr ""⟩, none⟩

/-- Record class with a primary-key field and one field of the given
annotation. -/
def m4Cls (ann : FieldAnn) : ClassDef :=
  ⟨true, [("uuid", .scalarAnn), ("x", ann)], none, none⟩

/-- Environment for the conversion-preemption claims. -/
def envC4 : Env := [("Special", specialFalsyCls), ("M", m4Cls .anyAnn)]

/-- An instance of the custom-convertible class. -/
def svSpecial : PyVal := .vmodel "Special" [("v", .vint 7)]

/-- A record instance holding the convertible value in its x field. -/
def mInstance : PyVal := .vmodel "M" [("uuid", .vstr "m1"), ("x", svSpecial)]

/-- C4 counterexample: the value's class declares an enabled conversion
returning the empty string, a falsy value, so the walrus truth test skips
the special branch and the other projection rules store the raw value: the
stored column value is the unconverted model, not the conversion result. -/
theorem C4_counterexample :
    DataBase.special_conversion envC4 svSpecial = .ok (.vstr "") ∧
    (DataBase.add envC4 1 DataBase.empty "Ms" mInstance [] true "uuid").2 = none ∧
    (∃ tb row,
      alookup (DataBase.add envC4 1 DataBase.empty "Ms" mInstance [] true
          "uuid").1.tables "Ms" = some tb ∧
      tb.rows = [row] ∧ alookup row "x" = some svSpecial) ∧
    svSpecial ≠ .vstr "" := by
  refine ⟨rfl, rfl, ⟨_, _, rfl, rfl, rfl⟩, ?_⟩
  intro h
  simp [svSpecial] at h

/-- Evaluation of the special conversion at a scalar value whose class
has no enabled conversion. -/
theorem special_conversion_vstr (env : Env) (u : String)
    (h : specialPossible env (.vstr u) = false) :
    DataBase.special_conversion env (.vstr u) = .ok (.vbool false) := by
  simp [DataBase.special_conversion, h]

/-- Evaluation of `dumpVal` at a string scalar, for any depth. -/
theorem dumpVal_vstr (fuel : Nat) (u : String) :
    dumpVal fuel (.vstr u) = .vstr u := by
  cases fuel <;> rfl

/-- Truthiness of the literal False returned by the conversion helper
for a non-applicable value. -/
theorem truthy_vbool_false : truthy (.vbool false) = false := rfl

/-- C4 amended: the enabled custom conversion preempts every other
projection rule precisely when its result is truthy under the walrus
test: whatever the declared annotation of the field and whatever the
caller-supplied foreign-table map, the stored column value is exactly the
conversion result. -/
theorem C4_truthy_conversion_preempts (env : Env) (ann : FieldAnn)
    (u : String) (v r : PyVal) (fuel : Nat)
    (ft : List (String × String)) (un : Bool)
    (henv : alookup env "M" = some (m4Cls ann))
    (hustr : specialPossible env (.vstr u) = false)
    (hconv : DataBase.special_conversion env v = .ok r)
    (htruthy : truthy r = true) :
    (DataBase.add env (fuel + 1) DataBase.empty "Ms"
        (.vmodel "M" [("uuid", .vstr u), ("x", v)]) ft un "uuid").2 = none ∧
    (∃ tb row,
      alookup (DataBase.add env (fuel + 1) DataBase.empty "Ms"
          (.vmodel "M" [("uuid", .vstr u), ("x", v)]) ft un "uuid").1.tables
          "Ms" = some tb ∧
      tb.rows = [row] ∧ alookup row "x" = some r) := by
  simp [DataBase.add, henv, m4Cls, processFields, getattrE, alookup, aset,
    modelDumpRow, dumpVal_vstr, special_conversion_vstr env u hustr, truthy_vbool_false, hconv,
    htruthy, DataBase.create_new_table, DataBase.upsertTable,
    TableBaseModelE.data, upsertRows, DataBase.empty]

/-- A class with an enabled conversion returning a truthy constant. -/
def specialTruthyCls : ClassDef :=
  ⟨false, [], some ⟨true, true, fun _ => .vstr "converted"⟩, none⟩

/-- Environment pairing the truthy-conversion class with the record
class. -/
def envC4w : Env := [("Special2", specialTruthyCls), ("M", m4Cls .anyAnn)]

/-- An instance of the truthy-conversion class. -/
def svTruthy : PyVal := .vmodel "Special2" [("v", .vint 7)]

/-- C4 witness: the amended theorem applied to a concrete record whose x
field holds a convertible value with a truthy conversion result. -/
theorem C4_truthy_conversion_preempts_witness :
    alookup envC4w "M" = some (m4Cls .anyAnn) ∧
    specialPossible envC4w (.vstr "m1") = false ∧
    DataBase.special_conversion envC4w svTruthy = .ok (.vstr "converted") ∧
    truthy (.vstr "converted") = true ∧
    ((DataBase.add envC4w 1 DataBase.empty "Ms"
        (.vmodel "M" [("uuid", .vstr "m1"), ("x", svTruthy)]) [] true
        "uuid").2 = none ∧
      (∃ tb row,
        alookup (DataBase.add envC4w 1 DataBase.empty "Ms"
            (.vmodel "M" [("uuid", .vstr "m1"), ("x", svTruthy)]) [] true
            "uuid").1.tables "Ms" = some tb ∧
        tb.rows = [row] ∧ alookup row "x" = some (.vstr "converted"))) :=
  ⟨rfl, rfl, rfl, rfl,
    C4_truthy_conversion_preempts envC4w .anyAnn "m1" svTruthy
      (.vstr "converted") 0 [] true rfl rfl rfl rfl⟩

/-- C8 amended: the heterogeneity guard of the custom-conversion path is
keyed on the first element: when the first element's class has an enabled
conversion, a heterogeneous list raises ValueError and a homogeneous list
is converted element-wise (and, at the store level, the converted list is
exactly what is stored); but when the first element's class has no enabled
conversion, the conversion path returns the literal False without raising,
however heterogeneous the list is. -/
theorem C8_list_conversion_guard (env : Env) (ann : FieldAnn)
    (x : PyVal) (xs : List PyVal) (u : String) (fuel : Nat)
    (ft : List (String × String)) (un : Bool)
    (henv : alookup env "M" = some (m4Cls ann))
    (hustr : specialPossible env (.vstr u) = false)
    (hpos : specialPossible env x = true) :
    ((x :: xs).all (fun m => classOf m == classOf x) = false →
      DataBase.special_conversion env (.vlist (x :: xs)) =
        .error (.valueError "not all values in the List are from the same type")) ∧
    ((x :: xs).all (fun m => classOf m == classOf x) = true →
      DataBase.special_conversion env (.vlist (x :: xs)) =
        .ok (.vlist ((x :: xs).map (applyConvert env (classOf x))))) ∧
    (∀ y ys, specialPossible env y = false →
      DataBase.special_conversion env (.vlist (y :: ys)) = .ok (.vbool false)) ∧
    ((x :: xs).all (fun m => classOf m == classOf x) = true →
      (DataBase.add env (fuel + 1) DataBase.empty "Ms"
          (.vmodel "M" [("uuid", .vstr u), ("x", .vlist (x :: xs))]) ft un
          "uuid").2 = none ∧
      (∃ tb row,
        alookup (DataBase.add env (fuel + 1) DataBase.empty "Ms"
            (.vmodel "M" [("uuid", .vstr u), ("x", .vlist (x :: xs))]) ft un
            "uuid").1.tables "Ms" = some tb ∧
        tb.rows = [row] ∧
        alookup row "x" =
          some (.vlist ((x :: xs).map (applyConvert env (classOf x)))))) := by
  refine ⟨?_, ?_, ?_, ?_⟩
  · intro h
    simp [DataBase.special_conversion, hpos, h]
  · intro h
    simp [DataBase.special_conversion, hpos, h]
  · intro y ys h
    simp [DataBase.special_conversion, h]
  · intro h
    have hconv : DataBase.special_conversion env (.vlist (x :: xs)) =
        .ok (.vlist ((x :: xs).map (applyConvert env (classOf x)))) := by
      simp [DataBase.special_conversion, hpos, h]
    refine ⟨?_, ?_⟩ <;>
      (simp [DataBase.add, henv, m4Cls, processFields, getattrE, alookup, aset,
        modelDumpRow, dumpVal_vstr, special_conversion_vstr env u hustr,
        truthy_vbool_false, DataBase.create_new_table,
        DataBase.upsertTable, TableBaseModelE.data, upsertRows, DataBase.empty]
       rw [hconv]
       simp [truthy, aset, alookup, DataBase.upsertTable, upsertRows])

/-- A second instance of the truthy-conversion class, for the homogeneous
list witness. -/
def svTruthy2 : PyVal := .vmodel "Special2" [("v", .vint 8)]

/-- C8 witness: the amended theorem applied to a concrete homogeneous
two-element list of the convertible class. -/
theorem C8_list_conversion_guard_witness :
    alookup envC4w "M" = some (m4Cls .anyAnn) ∧
    specialPossible envC4w (.vstr "m1") = false ∧
    specialPossible envC4w svTruthy = true ∧
    (([svTruthy, svTruthy2].all
        (fun m => classOf m == classOf svTruthy) = false →
      DataBase.special_conversion envC4w (.vlist [svTruthy, svTruthy2]) =
        .error (.valueError "not all values in the List are from the same type")) ∧
    ([svTruthy, svTruthy2].all
        (fun m => classOf m == classOf svTruthy) = true →
      DataBase.special_conversion envC4w (.vlist [svTruthy, svTruthy2]) =
        .ok (.vlist ([svTruthy, svTruthy2].map
          (applyConvert envC4w (classOf svTruthy))))) ∧
    (∀ y ys, specialPossible envC4w y = false →
      DataBase.special_conversion envC4w (.vlist (y :: ys)) =
        .ok (.vbool false)) ∧
    ([svTruthy, svTruthy2].all
        (fun m => classOf m == classOf svTruthy) = true →
      (DataBase.add envC4w 1 DataBase.empty "Ms"
          (.vmodel "M" [("uuid", .vstr "m1"),
            ("x", .vlist [svTruthy, svTruthy2])]) [] true "uuid").2 = none ∧
      (∃ tb row,
        alookup (DataBase.add envC4w 1 DataBase.empty "Ms"
            (.vmodel "M" [("uuid", .vstr "m1"),
              ("x", .vlist [svTruthy, svTruthy2])]) [] true
            "uuid").1.tables "Ms" = some tb ∧
        tb.rows = [row] ∧
        alookup row "x" =
          some (.vlist ([svTruthy, svTruthy2].map
            (applyConvert envC4w (classOf svTruthy))))))) :=
  ⟨rfl, rfl, rfl,
    C8_list_conversion_guard envC4w .anyAnn svTruthy [svTruthy2] "m1" 0 []
      true rfl rfl rfl⟩

/-- Keys of an association list are unchanged by an update at an existing
key. -/
theorem mapfst_aset_of_mem {α : Type} (l : List (String × α)) (k : String)
    (v w : α) (h : alookup l k = some w) :
    (aset l k v).map Prod.fst = l.map Prod.fst := by
  induction l with
  | nil => simp [alookup] at h
  | cons hd tl ih =>
      obtain ⟨a, b⟩ := hd
      by_cases h1 : a = k
      · subst h1; simp [aset]
      · simp only [alookup] at h
        rw [if_neg (by simpa using h1)] at h
        simp [aset, h1, ih h]

/-- The registry dictionaries are untouched by a table upsert. -/
theorem basemodels_upsertTable (db : DataBase) (n pk : String) (row : Row)
    (fks : List (String × String)) :
    (db.upsertTable n pk row fks).basemodels = db.basemodels := by
  unfold DataBase.upsertTable
  cases alookup db.tables n <;> rfl

/-- The primary-key dictionary is untouched by a table upsert. -/
theorem primary_keys_upsertTable (db : DataBase) (n pk : String) (row : Row)
    (fks : List (String × String)) :
    (db.upsertTable n pk row fks).primary_keys = db.primary_keys := by
  unfold DataBase.upsertTable
  cases alookup db.tables n <;> rfl

/-- A table upsert leaves every other table unchanged. -/
theorem alookup_tables_upsertTable_ne (db : DataBase) (n pk : String)
    (row : Row) (fks : List (String × String)) (t : String) (h : n ≠ t) :
    alookup (db.upsertTable n pk row fks).tables t = alookup db.tables t := by
  unfold DataBase.upsertTable
  cases halt : alookup db.tables n with
  | none => simp [alookup_append_ne _ _ _ _ h]
  | some tb => simp [alookup_aset_ne _ _ _ _ h]

/-- A table name absent from the database stays absent after an upsert
into a differently named table. -/
theorem notMem_tableNames_upsertTable (db : DataBase) (n pk : String)
    (row : Row) (fks : List (String × String)) (T : String)
    (h1 : ¬ T ∈ db.tableNames) (h2 : n ≠ T) :
    ¬ T ∈ (db.upsertTable n pk row fks).tableNames := by
  unfold DataBase.upsertTable
  cases halt : alookup db.tables n with
  | none =>
      simp only [DataBase.tableNames, List.map_append, List.map_cons,
        List.map_nil, List.mem_append, List.mem_singleton, not_or]
      constructor
      · simpa [DataBase.tableNames] using h1
      · exact fun h => h2 h.symm
  | some tb =>
      simpa [DataBase.tableNames, mapfst_aset_of_mem _ _ _ _ halt] using h1

/-- Class of a record with a primary key and one nested-record field,
standing for the `Employee` shape. -/
def e7Cls : ClassDef :=
  ⟨true, [("uuid", .scalarAnn), ("person", .modelAnn "P7")], none, none⟩

/-- C7: storing a record with a nested-record field fails with a
LookupError-class error (KeyError) when the field has no entry in the
caller-supplied foreign-table map, and likewise when the mapped target
table does not exist in the database; in both cases the parent table is
left exactly as it was (the parent row is not upserted). -/
theorem C7_missing_foreign_table_raises (env : Env) (db : DataBase)
    (t u : String) (pv : PyVal) (ft : List (String × String)) (un : Bool)
    (fuel : Nat)
    (henv : alookup env "E7" = some e7Cls)
    (hfresh : alookup db.basemodels t = none)
    (ht : t ≠ "__basemodels__")
    (hustr : specialPossible env (.vstr u) = false)
    (hpv : DataBase.special_conversion env pv = .ok (.vbool false)) :
    (alookup ft "person" = none →
      (∃ e, (DataBase.add env (fuel + 1) db t
          (.vmodel "E7" [("uuid", .vstr u), ("person", pv)]) ft un
          "uuid").2 = some e ∧ e.isLookupError = true) ∧
      alookup (DataBase.add env (fuel + 1) db t
          (.vmodel "E7" [("uuid", .vstr u), ("person", pv)]) ft un
          "uuid").1.tables t = alookup db.tables t) ∧
    (∀ T, alookup ft "person" = some T →
      ¬ T ∈ db.tableNames → T ≠ "__basemodels__" →
      (∃ e, (DataBase.add env (fuel + 1) db t
          (.vmodel "E7" [("uuid", .vstr u), ("person", pv)]) ft un
          "uuid").2 = some e ∧ e.isLookupError = true) ∧
      alookup (DataBase.add env (fuel + 1) db t
          (.vmodel "E7" [("uuid", .vstr u), ("person", pv)]) ft un
          "uuid").1.tables t = alookup db.tables t) := by
  constructor
  · intro hft
    refine ⟨?_, ?_⟩ <;>
      simp [DataBase.add, henv, e7Cls, hfresh, processFields, getattrE, alookup,
        special_conversion_vstr env u hustr, truthy_vbool_false, hpv,
        DataBase.create_new_table, basemodels_upsertTable, alookup_aset_self,
        DataBase.get_foreign_table_name, hft, PyErr.isLookupError]
    exact alookup_tables_upsertTable_ne _ _ _ _ _ _ (fun h => ht h.symm)
  · intro T hft hT hTbm
    have hT2 : ¬ T ∈ (({ db with
        basemodels := aset db.basemodels t ⟨t, "E7", ["uuid"]⟩,
        primary_keys := aset db.primary_keys t "uuid" } :
          DataBase).upsertTable "__basemodels__" "modulename"
          (TableBaseModelE.data ⟨t, "E7", ["uuid"]⟩) []).tableNames := by
      apply notMem_tableNames_upsertTable
      · simpa [DataBase.tableNames] using hT
      · exact fun h => hTbm h.symm
    refine ⟨?_, ?_⟩ <;>
      simp [DataBase.add, henv, e7Cls, hfresh, processFields, getattrE, alookup,
        special_conversion_vstr env u hustr, truthy_vbool_false, hpv,
        DataBase.create_new_table, basemodels_upsertTable, alookup_aset_self,
        DataBase.get_foreign_table_name, hft, hT2, PyErr.isLookupError]
    exact alookup_tables_upsertTable_ne _ _ _ _ _ _ (fun h => ht h.symm)

/-- Environment for the C7 witness: only the parent class is known. -/
def envC7 : Env := [("E7", e7Cls)]

/-- A nested record value of the unknown-to-the-database class P7. -/
def p7Instance : PyVal := .vmodel "P7" [("uuid", .vstr "p1")]

/-- C7 witness: the theorem applied to a concrete store into the empty
database with the foreign-table map naming a nonexistent table. -/
theorem C7_missing_foreign_table_raises_witness :
    alookup envC7 "E7" = some e7Cls ∧
    alookup DataBase.empty.basemodels "Employees" = none ∧
    ("Employees" : String) ≠ "__basemodels__" ∧
    specialPossible envC7 (.vstr "e1") = false ∧
    DataBase.special_conversion envC7 p7Instance = .ok (.vbool false) ∧
    ((alookup [("person", "Persons")] "person" = none →
      (∃ e, (DataBase.add envC7 1 DataBase.empty "Employees"
          (.vmodel "E7" [("uuid", .vstr "e1"), ("person", p7Instance)])
          [("person", "Persons")] true "uuid").2 = some e ∧
        e.isLookupError = true) ∧
      alookup (DataBase.add envC7 1 DataBase.empty "Employees"
          (.vmodel "E7" [("uuid", .vstr "e1"), ("person", p7Instance)])
          [("person", "Persons")] true "uuid").1.tables "Employees" =
        alookup DataBase.empty.tables "Employees") ∧
    (∀ T, alookup [("person", "Persons")] "person" = some T →
      ¬ T ∈ DataBase.empty.tableNames → T ≠ "__basemodels__" →
      (∃ e, (DataBase.add envC7 1 DataBase.empty "Employees"
          (.vmodel "E7" [("uuid", .vstr "e1"), ("person", p7Instance)])
          [("person", "Persons")] true "uuid").2 = some e ∧
        e.isLookupError = true) ∧
      alookup (DataBase.add envC7 1 DataBase.empty "Employees"
          (.vmodel "E7" [("uuid", .vstr "e1"), ("person", p7Instance)])
          [("person", "Persons")] true "uuid").1.tables "Employees" =
        alookup DataBase.empty.tables "Employees")) :=
  ⟨rfl, rfl, by decide, rfl, rfl,
    C7_missing_foreign_table_raises envC7 DataBase.empty "Employees" "e1"
      p7Instance [("person", "Persons")] true 0 rfl rfl (by decide) rfl rfl⟩

/-- Class of a record with a primary key and a nested record of the Child
class. -/
def e6Cls : ClassDef :=
  ⟨true, [("uuid", .scalarAnn), ("person", .modelAnn "Child")], none, none⟩

/-- A scalar string value's class carries no conversion when the
environment does not define the class str. -/
theorem specialPossible_vstr (env : Env) (s : String)
    (h : alookup env "str" = none) : specialPossible env (.vstr s) = false := by
  simp [specialPossible, classOf, h]

/-- A Child instance has no enabled conversion: its class declares no
SQConfig. -/
theorem special_conversion_child (env : Env) (fs : List (String × PyVal))
    (h : alookup env "Child" = some childCls) :
    DataBase.special_conversion env (.vmodel "Child" fs) = .ok (.vbool false) := by
  simp [DataBase.special_conversion, specialPossible, classOf, h, childCls]

/-- A database holding one registered table Childs of Child records with
the given rows and foreign-key metadata. -/
def c6DB (trows : List Row) (tfks : List (String × String)) : DataBase :=
  ⟨[("Childs", ⟨"Childs", "Child", ["uuid"]⟩)], [("Childs", "uuid")],
   [("Childs", ⟨trows, tfks⟩)]⟩

/-- C6: storing a parent with a nested-record field succeeds; the parent's
foreign-key column always holds the nested record's primary-key value;
the nested record is re-stored into the target table precisely when it is
absent there or update_nested_models is true, and with
update_nested_models false and the key already present the stored nested
rows are left untouched. -/
theorem C6_nested_record_upsert (env : Env) (pu cu cn : String) (un : Bool)
    (fuel : Nat) (trows : List Row) (tfks : List (String × String))
    (henv : alookup env "E6" = some e6Cls)
    (henvChild : alookup env "Child" = some childCls)
    (hstr : alookup env "str" = none) :
    (DataBase.add env (fuel + 2) (c6DB trows tfks) "Parents"
        (.vmodel "E6" [("uuid", .vstr pu), ("person", mkChild cu cn)])
        [("person", "Childs")] un "uuid").2 = none ∧
    alookup (DataBase.add env (fuel + 2) (c6DB trows tfks) "Parents"
        (.vmodel "E6" [("uuid", .vstr pu), ("person", mkChild cu cn)])
        [("person", "Childs")] un "uuid").1.tables "Parents" =
      some ⟨[[("uuid", .vstr pu), ("person", .vstr cu)]],
            [("person", "Childs")]⟩ ∧
    ((rowsWhereEq trows "uuid" (.vstr cu)).isEmpty = false → un = false →
      alookup (DataBase.add env (fuel + 2) (c6DB trows tfks) "Parents"
          (.vmodel "E6" [("uuid", .vstr pu), ("person", mkChild cu cn)])
          [("person", "Childs")] un "uuid").1.tables "Childs" =
        some ⟨trows, tfks⟩) ∧
    ((rowsWhereEq trows "uuid" (.vstr cu)).isEmpty = true ∨ un = true →
      alookup (DataBase.add env (fuel + 2) (c6DB trows tfks) "Parents"
          (.vmodel "E6" [("uuid", .vstr pu), ("person", mkChild cu cn)])
          [("person", "Childs")] un "uuid").1.tables "Childs" =
        some ⟨upsertRows trows "uuid" (childRow cu cn), tfks⟩) := by
  by_cases habs : (rowsWhereEq trows "uuid" (.vstr cu)).isEmpty = true <;>
    cases un <;>
    refine ⟨?_, ?_, ?_, ?_⟩ <;>
    simp [DataBase.add, henv, e6Cls, childCls, processFields, getattrE,
      alookup, c6DB, mkChild, childRow, modelDumpRow, dumpVal_vstr,
      special_conversion_vstr env _ (specialPossible_vstr env _ hstr),
      special_conversion_child env _ henvChild, henvChild,
      truthy_vbool_false, DataBase.create_new_table, DataBase.upsertTable,
      TableBaseModelE.data, DataBase.get_foreign_table_name,
      DataBase.tableNames, DataBase.upsert_model_in_foreign_table, addNested,
      DataBase.model_in_table, aset, upsertRows, habs]

/-- Environment for the C6 witness. -/
def envC6 : Env := [("E6", e6Cls), ("Child", childCls)]

/-- C6 witness: the theorem applied to a concrete parent whose nested
record key c1 is already stored with an old value, with
update_nested_models false: the stored nested copy stays untouched. -/
theorem C6_nested_record_upsert_witness :
    alookup envC6 "E6" = some e6Cls ∧
    alookup envC6 "Child" = some childCls ∧
    alookup envC6 "str" = none ∧
    ((DataBase.add envC6 2 (c6DB [childRow "c1" "old"] []) "Parents"
        (.vmodel "E6" [("uuid", .vstr "p1"), ("person", mkChild "c1" "new")])
        [("person", "Childs")] false "uuid").2 = none ∧
    alookup (DataBase.add envC6 2 (c6DB [childRow "c1" "old"] []) "Parents"
        (.vmodel "E6" [("uuid", .vstr "p1"), ("person", mkChild "c1" "new")])
        [("person", "Childs")] false "uuid").1.tables "Parents" =
      some ⟨[[("uuid", .vstr "p1"), ("person", .vstr "c1")]],
            [("person", "Childs")]⟩ ∧
    ((rowsWhereEq [childRow "c1" "old"] "uuid" (.vstr "c1")).isEmpty = false →
      false = false →
      alookup (DataBase.add envC6 2 (c6DB [childRow "c1" "old"] []) "Parents"
          (.vmodel "E6" [("uuid", .vstr "p1"), ("person", mkChild "c1" "new")])
          [("person", "Childs")] false "uuid").1.tables "Childs" =
        some ⟨[childRow "c1" "old"], []⟩) ∧
    ((rowsWhereEq [childRow "c1" "old"] "uuid" (.vstr "c1")).isEmpty = true ∨
        false = true →
      alookup (DataBase.add envC6 2 (c6DB [childRow "c1" "old"] []) "Parents"
          (.vmodel "E6" [("uuid", .vstr "p1"), ("person", mkChild "c1" "new")])
          [("person", "Childs")] false "uuid").1.tables "Childs" =
        some ⟨upsertRows [childRow "c1" "old"] "uuid" (childRow "c1" "new"),
          []⟩)) :=
  ⟨rfl, rfl, rfl,
    C6_nested_record_upsert envC6 "p1" "c1" "new" false 0
      [childRow "c1" "old"] [] rfl rfl rfl⟩

def childRowF (k : String × String) : Row := childRow k.1 k.2

def mCmeta : TableBaseModelE := ⟨"Childs", "Child", ["uuid"]⟩
def mKmeta : TableBaseModelE := ⟨"Kids", "Child", ["uuid"]⟩
def mPmeta : TableBaseModelE := ⟨"Parents", "Parent", ["uuid"]⟩

def dbB (bu bn : String) : DataBase :=
  ⟨[("Childs", mCmeta)], [("Childs", "uuid")],
   [("__basemodels__", ⟨[mCmeta.data], []⟩),
    ("Childs", ⟨[childRow bu bn], []⟩)]⟩

def dbK (bu bn : String) (krows : List Row) : DataBase :=
  ⟨[("Childs", mCmeta), ("Kids", mKmeta)],
   [("Childs", "uuid"), ("Kids", "uuid")],
   [("__basemodels__", ⟨[mKmeta.data], []⟩),
    ("Childs", ⟨[childRow bu bn], []⟩),
    ("Kids", ⟨krows, []⟩)]⟩

def dbF (pu bu bn : String) (krows : List Row) (ids : List PyVal) : DataBase :=
  ⟨[("Childs", mCmeta), ("Kids", mKmeta), ("Parents", mPmeta)],
   [("Childs", "uuid"), ("Kids", "uuid"), ("Parents", "uuid")],
   [("__basemodels__", ⟨[mKmeta.data, mPmeta.data], []⟩),
    ("Childs", ⟨[childRow bu bn], []⟩),
    ("Kids", ⟨krows, []⟩),
    ("Parents", ⟨[[("uuid", .vstr pu), ("buddy", .vstr bu),
      ("kids", .vlist ids)]], [("buddy", "Childs"), ("kids", "Kids")]⟩)]⟩

theorem buddy_step (bu bn : String) :
    DataBase.add envC1 2 DataBase.empty "Childs" (mkChild bu bn) [] true "uuid" =
      (dbB bu bn, none) := rfl

theorem kid1_step (bu bn u n : String) :
    DataBase.add envC1 2 (dbB bu bn) "Kids" (mkChild u n) [] true "uuid" =
      (dbK bu bn [childRow u n], none) := rfl

theorem kid_step (bu bn u n : String) (krows : List Row) :
    DataBase.add envC1 2 (dbK bu bn krows) "Kids" (mkChild u n) [] true "uuid" =
      (dbK bu bn (upsertRows krows "uuid" (childRow u n)), none) := rfl

def c1AddKids : DataBase → List (String × String) → DataBase × Option PyErr
  | db, [] => (db, none)
  | db, k :: ks =>
      match DataBase.add envC1 2 db "Kids" (mkChild k.1 k.2) [] true "uuid" with
      | (db2, some e) => (db2, some e)
      | (db2, none) => c1AddKids db2 ks

def c1FoldRows : List Row → List (String × String) → List Row
  | r, [] => r
  | r, k :: ks => c1FoldRows (upsertRows r "uuid" (childRow k.1 k.2)) ks

theorem c1AddKids_eq (bu bn : String) (krows : List Row)
    (ks : List (String × String)) :
    c1AddKids (dbK bu bn krows) ks = (dbK bu bn (c1FoldRows krows ks), none) := by
  induction ks generalizing krows with
  | nil => rfl
  | cons k ks ih =>
      rw [c1AddKids, kid_step]
      exact ih _

theorem upsertRows_childRows_fresh (done : List (String × String))
    (p : String) (row : Row) (hp : ¬ p ∈ done.map Prod.fst)
    (hrow : alookup row "uuid" = some (.vstr p)) :
    upsertRows (done.map childRowF) "uuid" row = done.map childRowF ++ [row] := by
  induction done with
  | nil => rfl
  | cons d ds ih =>
      simp only [List.map_cons, List.mem_cons, not_or] at hp
      have hne : (d.1 == p) = false := by simpa using fun h => hp.1 h.symm
      simp [upsertRows, childRowF, childRow, alookup, hrow, cellEq, hne, ih hp.2]

theorem c1FoldRows_map (ks done : List (String × String))
    (hnd : ((done ++ ks).map Prod.fst).Nodup) :
    c1FoldRows (done.map childRowF) ks = (done ++ ks).map childRowF := by
  induction ks generalizing done with
  | nil => simp [c1FoldRows]
  | cons k ks ih =>
      rw [c1FoldRows,
        upsertRows_childRows_fresh done k.1 (childRow k.1 k.2)
          (by
            have := hnd
            simp only [List.map_append, List.nodup_append] at this
            intro hmem
            exact this.2.2 hmem (by simp))
          rfl]
      rw [show done.map childRowF ++ [childRow k.1 k.2] =
        (done ++ [k]).map childRowF by simp [childRowF]]
      rw [ih (done ++ [k]) (by simpa using hnd)]
      simp

theorem rowsWhereEq_childRows_absent (ks : List (String × String)) (p : String)
    (hp : ¬ p ∈ ks.map Prod.fst) :
    rowsWhereEq (ks.map childRowF) "uuid" (.vstr p) = [] := by
  induction ks with
  | nil => rfl
  | cons d ds ih =>
      simp only [List.map_cons, List.mem_cons, not_or] at hp
      have hne : (d.1 == p) = false := by simpa using fun h => hp.1 h.symm
      have ih2 := ih hp.2
      simp [rowsWhereEq, childRowF, childRow, alookup, cellEq, hne] at ih2 ⊢
      exact ih2

theorem rowsWhereEq_childRows_found (ks : List (String × String))
    (k : String × String) (hmem : k ∈ ks) (hnd : (ks.map Prod.fst).Nodup) :
    rowsWhereEq (ks.map childRowF) "uuid" (.vstr k.1) = [childRow k.1 k.2] := by
  induction ks with
  | nil => cases hmem
  | cons d ds ih =>
      simp only [List.map_cons, List.nodup_cons] at hnd
      cases hmem with
      | head =>
          have habsent := rowsWhereEq_childRows_absent ds k.1 hnd.1
          simp [rowsWhereEq, childRowF, childRow, alookup, cellEq] at habsent ⊢
          exact habsent
      | tail _ hmem2 =>
          have hne : (d.1 == k.1) = false := by
            have hm : k.1 ∈ ds.map Prod.fst := List.mem_map.mpr ⟨k, hmem2, rfl⟩
            have hne2 : ¬ d.1 = k.1 := fun h => hnd.1 (by rw [h]; exact hm)
            simpa using hne2
          have := ih hmem2 hnd.2
          simp [rowsWhereEq, childRowF, childRow, alookup, cellEq, hne] at this ⊢
          exact this

theorem mapM_getattr_uuid (ks : List (String × String)) :
    List.mapM (fun m => getattrE m "uuid")
        (ks.map (fun k => mkChild k.1 k.2)) =
      Except.ok (ks.map fun k => PyVal.vstr k.1) := by
  induction ks with
  | nil => rfl
  | cons k ks ih =>
      simp only [List.map_cons, List.mapM_cons, ih]
      rfl

theorem envC1_parent : alookup envC1 "Parent" = some parentCls := rfl

theorem envC1_child : alookup envC1 "Child" = some childCls := rfl

theorem sc_vstr_envC1 (u : String) :
    DataBase.special_conversion envC1 (.vstr u) = .ok (.vbool false) := rfl

theorem sc_child_envC1 (fs : List (String × PyVal)) :
    DataBase.special_conversion envC1 (.vmodel "Child" fs) =
      .ok (.vbool false) := rfl

theorem sc_childList_envC1 (ks : List (String × String)) :
    DataBase.special_conversion envC1
        (.vlist (List.map (fun k => PyVal.vmodel "Child"
          [("uuid", PyVal.vstr k.1), ("name", PyVal.vstr k.2)]) ks)) =
      .ok (.vbool false) := by
  cases ks <;> rfl

theorem mapGetattrE_children (ks : List (String × String)) :
    mapGetattrE "uuid"
        (List.map (fun k => PyVal.vmodel "Child"
          [("uuid", PyVal.vstr k.1), ("name", PyVal.vstr k.2)]) ks) =
      .ok (List.map (fun k => PyVal.vstr k.1) ks) := by
  induction ks with
  | nil => rfl
  | cons k ks ih => simp [mapGetattrE, getattrE, alookup, ih, Except.map]

theorem parent_step (pu bu bn : String) (ks : List (String × String)) :
    DataBase.add envC1 2 (dbK bu bn (ks.map childRowF)) "Parents"
        (mkParent pu bu bn ks) [("buddy", "Childs"), ("kids", "Kids")] true
        "uuid" =
      (dbF pu bu bn (ks.map childRowF) (ks.map fun k => PyVal.vstr k.1),
        none) := by
  simp [DataBase.add, envC1_parent, envC1_child, parentCls, childCls,
    processFields, getattrE,
    alookup, dbK, dbF, mkParent, mkChild, childRow, childRowF, modelDumpRow,
    sc_vstr_envC1, sc_child_envC1, sc_childList_envC1, truthy_vbool_false,
    mapGetattrE_children,
    DataBase.create_new_table, DataBase.upsertTable, TableBaseModelE.data,
    DataBase.get_foreign_table_name, DataBase.tableNames,
    DataBase.upsert_model_in_foreign_table, addNested,
    DataBase.model_in_table, aset, upsertRows, mCmeta, mKmeta, mPmeta,
    dumpVal, cellEq, rowsWhereEq]

theorem load_buddy (pu bu bn : String) (krows : List Row) (ids : List PyVal) :
    tableLoader envC1 1 (dbF pu bu bn krows ids) "Childs" (.vstr bu) =
      .ok (some (mkChild bu bn)) := by
  rw [tableLoader, model_from_table_succ]
  simp [dbF, alookup, rowsWhereEq, childRow, cellEq, mCmeta, mKmeta, mPmeta,
    build_basemodel_from_dict, envC1_child, buildFields, childCls,
    constructModel, collectFields, mkChild, Except.map]

theorem load_kid (pu bu bn p n : String) (krows : List Row)
    (ids : List PyVal)
    (hmatch : rowsWhereEq krows "uuid" (.vstr p) = [childRow p n]) :
    tableLoader envC1 1 (dbF pu bu bn krows ids) "Kids" (.vstr p) =
      .ok (some (mkChild p n)) := by
  rw [tableLoader, model_from_table_succ]
  simp [dbF, alookup, hmatch, childRow, cellEq, mCmeta, mKmeta, mPmeta,
    build_basemodel_from_dict, envC1_child, buildFields, childCls,
    constructModel, collectFields, mkChild, Except.map]

theorem mapLoader_kids (pu bu bn : String) (krows : List Row)
    (ids : List PyVal) (ks2 : List (String × String))
    (h : ∀ k ∈ ks2, rowsWhereEq krows "uuid" (.vstr k.1) =
      [childRow k.1 k.2]) :
    mapLoader (tableLoader envC1 1 (dbF pu bu bn krows ids)) "Kids"
        (ks2.map fun k => PyVal.vstr k.1) =
      .ok (ks2.map fun k => mkChild k.1 k.2) := by
  induction ks2 with
  | nil => rfl
  | cons k ks2 ih =>
      simp only [List.map_cons, mapLoader,
        load_kid pu bu bn k.1 k.2 krows ids (h k (by simp)),
        ih (fun k2 hm => h k2 (by simp [hm]))]
      rfl

theorem load_parent (pu bu bn : String) (ks : List (String × String))
    (h : ∀ k ∈ ks, rowsWhereEq (ks.map childRowF) "uuid" (.vstr k.1) =
      [childRow k.1 k.2]) :
    DataBase.model_from_table envC1 2
        (dbF pu bu bn (ks.map childRowF) (ks.map fun k => PyVal.vstr k.1))
        "Parents" (.vstr pu) = .ok (some (mkParent pu bu bn ks)) := by
  rw [show (2 : Nat) = 1 + 1 from rfl, model_from_table_succ]
  simp [alookup, rowsWhereEq, cellEq,
    build_basemodel_from_dict, envC1_parent, buildFields, parentCls,
    constructModel, collectFields, mkParent, Except.map, jsonLoads,
    load_buddy, mapLoader_kids pu bu bn _ _ ks h, mPmeta,
    show alookup (dbF pu bu bn (ks.map childRowF)
      (ks.map fun k => PyVal.vstr k.1)).primary_keys "Parents" =
      some "uuid" from rfl,
    show alookup (dbF pu bu bn (ks.map childRowF)
      (ks.map fun k => PyVal.vstr k.1)).tables "Parents" =
      some ⟨[[("uuid", PyVal.vstr pu), ("buddy", PyVal.vstr bu),
        ("kids", PyVal.vlist (ks.map fun k => PyVal.vstr k.1))]],
        [("buddy", "Childs"), ("kids", "Kids")]⟩ from rfl,
    show alookup (dbF pu bu bn (ks.map childRowF)
      (ks.map fun k => PyVal.vstr k.1)).basemodels "Parents" =
      some mPmeta from rfl]

def c1Pipeline (pu bu bn : String) (ks : List (String × String)) :
    DataBase × Option PyErr :=
  match DataBase.add envC1 2 DataBase.empty "Childs" (mkChild bu bn) [] true
      "uuid" with
  | (db, some e) => (db, some e)
  | (db, none) =>
      match c1AddKids db ks with
      | (db2, some e) => (db2, some e)
      | (db2, none) =>
          DataBase.add envC1 2 db2 "Parents" (mkParent pu bu bn ks)
            [("buddy", "Childs"), ("kids", "Kids")] true "uuid"

theorem c1Pipeline_eq (pu bu bn : String) (k0 : String × String)
    (ks : List (String × String))
    (hnd : ((k0 :: ks).map Prod.fst).Nodup) :
    c1Pipeline pu bu bn (k0 :: ks) =
      (dbF pu bu bn ((k0 :: ks).map childRowF)
        ((k0 :: ks).map fun k => PyVal.vstr k.1), none) := by
  have hfold : c1FoldRows [childRow k0.1 k0.2] ks =
      childRow k0.1 k0.2 :: List.map childRowF ks := by
    have h2 := c1FoldRows_map ks [k0] (by simpa using hnd)
    simpa [childRowF] using h2
  have hkids : c1AddKids (dbB bu bn) (k0 :: ks) =
      (dbK bu bn (childRow k0.1 k0.2 :: List.map childRowF ks), none) := by
    simp only [c1AddKids, kid1_step]
    rw [c1AddKids_eq, hfold]
  simp only [c1Pipeline, buddy_step, hkids]
  exact parent_step pu bu bn (k0 :: ks)

/-- C1 counterexample setup: store the buddy child and one kid, then a
parent whose kids list references a child (cx) that was never stored;
add succeeds (it stores only the ids of sequence members), and the load
resolves the missing id to None, so the loaded instance differs from the
stored one. -/
def ghostSt1 : DataBase × Option PyErr :=
  DataBase.add envC1 2 DataBase.empty "Childs" (mkChild "b" "bo") [] true "uuid"

/-- Second step: one kid c1 is stored into Kids. -/
def ghostSt2 : DataBase × Option PyErr :=
  DataBase.add envC1 2 ghostSt1.1 "Kids" (mkChild "c1" "golf") [] true "uuid"

/-- Third step: the parent references the never-stored kid cx. -/
def ghostSt3 : DataBase × Option PyErr :=
  DataBase.add envC1 2 ghostSt2.1 "Parents"
    (mkParent "g2" "b" "bo" [("cx", "ghost")])
    [("buddy", "Childs"), ("kids", "Kids")] true "uuid"

/-- C1 counterexample: a record with a sequence-of-nested field whose
member was never itself stored is accepted by add (only the ids are
written), and loading it back yields a record whose kids entry is None —
not equal to the stored record.  The claimed unconditional round trip
fails because add does not store the members of a list-of-records field. -/
theorem C1_counterexample :
    ghostSt1.2 = none ∧ ghostSt2.2 = none ∧ ghostSt3.2 = none ∧
    DataBase.model_from_table envC1 2 ghostSt3.1 "Parents" (.vstr "g2") =
      .ok (some (.vmodel "Parent"
        [("uuid", .vstr "g2"), ("buddy", mkChild "b" "bo"),
         ("kids", .vlist [.vnone])])) ∧
    (.vmodel "Parent"
        [("uuid", .vstr "g2"), ("buddy", mkChild "b" "bo"),
         ("kids", .vlist [.vnone])]) ≠
      mkParent "g2" "b" "bo" [("cx", "ghost")] := by
  refine ⟨rfl, rfl, rfl, rfl, ?_⟩
  intro h
  simp [mkParent, mkChild] at h

/-- C1 amended: the round trip holds for a record with scalar fields, a
nested-record field, and a sequence-of-nested field, provided every member
of the sequence is itself stored into the mapped foreign table first (with
its current values, under pairwise distinct primary keys): storing the
members, then the parent, then loading the parent by its primary key
returns exactly the original record, nested members included. -/
theorem C1_roundtrip_with_prestored_sequence (pu bu bn : String)
    (k0 : String × String) (ks : List (String × String))
    (hnd : ((k0 :: ks).map Prod.fst).Nodup) :
    (c1Pipeline pu bu bn (k0 :: ks)).2 = none ∧
    DataBase.model_from_table envC1 2 (c1Pipeline pu bu bn (k0 :: ks)).1
        "Parents" (.vstr pu) = .ok (some (mkParent pu bu bn (k0 :: ks))) := by
  rw [c1Pipeline_eq pu bu bn k0 ks hnd]
  exact ⟨rfl,
    load_parent pu bu bn (k0 :: ks)
      (fun k hk => rowsWhereEq_childRows_found (k0 :: ks) k hk hnd)⟩

/-- C1 witness: the amended round trip at a concrete parent with two
pre-stored kids. -/
theorem C1_roundtrip_with_prestored_sequence_witness :
    (([("c1", "golf"), ("c2", "a4")].map Prod.fst).Nodup) ∧
    ((c1Pipeline "p1" "b" "bo" [("c1", "golf"), ("c2", "a4")]).2 = none ∧
      DataBase.model_from_table envC1 2
          (c1Pipeline "p1" "b" "bo" [("c1", "golf"), ("c2", "a4")]).1
          "Parents" (.vstr "p1") =
        .ok (some (mkParent "p1" "b" "bo" [("c1", "golf"), ("c2", "a4")]))) :=
  ⟨by decide,
    C1_roundtrip_with_prestored_sequence "p1" "b" "bo" ("c1", "golf")
      [("c2", "a4")] (by decide)⟩

/-- C8 counterexample: a heterogeneous non-empty list whose first element
has a class without an enabled conversion does not raise in the
custom-conversion path: the path returns the literal False and the store
succeeds, handling the raw list by the remaining projection rules. -/
theorem C8_counterexample :
    classOf (.vint 1) ≠ classOf svTruthy ∧
    DataBase.special_conversion envC4w (.vlist [.vint 1, svTruthy]) =
      .ok (.vbool false) ∧
    (DataBase.add envC4w 1 DataBase.empty "Ms"
        (.vmodel "M" [("uuid", .vstr "m1"),
          ("x", .vlist [.vint 1, svTruthy])]) [] true "uuid").2 = none :=
  ⟨by decide, rfl, rfl⟩
